import Mathlib

/-!
Shallow embedding of the emergency-health-care membership application
(`app.py`, `db_utils.py`, `webhook_listener.py`).

The Membership Store (a single SQLite table) is modelled as a `List Member`.
External collaborators — the Stripe gateway, the system clock, and the
Python standard-library datetime parser — are passed in as explicit
parameters, mirroring the spec's "treated as external collaborators" scope.
-/

namespace HealthCare

/-- One row of the `members` table (`db_utils.py`, `create_tables`).
Nullable columns are `Option`; timestamps are kept as the ISO strings the
code stores. -/
structure Member where
  id : String
  name : String
  email : String
  password_hash : String
  children : Nat
  certificate_id : String
  certificate_status : String
  certificate_expiry_date : Option String
  medical_answers_encrypted : String
  stripe_customer_id : Option String
  stripe_subscription_id : Option String
  subscription_status : String
  created_at : String
  updated_at : String
deriving Repr, DecidableEq

/-- Python truthiness of an optional string: `None` and `""` are falsy. -/
def pyTruthy : Option String → Bool
  | none => false
  | some s => s ≠ ""

/-- `calculate_total_monthly_cost(children)` (`app.py` line 29):
`20 + (5 * children)`. -/
def calculate_total_monthly_cost (children : Nat) : Nat :=
  20 + 5 * children

/-- `is_certificate_valid_from_db(expiry_date_str, status)` (`app.py`
lines 35-48).  `parseIso` stands for the external
`datetime.fromisoformat` call composed with the naive-timestamp-to-UTC
normalisation of lines 43-44: it yields the UTC instant, or `none` when
the library raises `ValueError`.  `now` is the UTC instant of
`datetime.now(timezone.utc)`.  The `none`/`""` cases are Python's
`if not expiry_date_str`. -/
def is_certificate_valid_from_db (parseIso : String → Option Int) (now : Int)
    (expiry_date_str : Option String) (status : String) : Bool :=
  if status ≠ "active" then false
  else match expiry_date_str with
    | none => false
    | some s =>
      if s = "" then false
      else match parseIso (s.replace "Z" "+00:00") with
        | none => false
        | some expiry => decide (expiry > now)

/-- `get_member_by_email` (`db_utils.py` lines 49-52): first row whose
`email` column equals the argument (`email` is UNIQUE, so at most one). -/
def get_member_by_email (store : List Member) (email : String) : Option Member :=
  store.find? (fun m => m.email = email)

/-- `get_member_by_stripe_subscription_id` (`db_utils.py` lines 59-62). -/
def get_member_by_stripe_subscription_id (store : List Member)
    (subscription_id : String) : Option Member :=
  store.find? (fun m => m.stripe_subscription_id = some subscription_id)

/-- `add_member` (`db_utils.py` lines 36-47): a plain INSERT.  The UNIQUE
constraint on `email` makes the INSERT fail with `sqlite3.IntegrityError`
when a row with that email already exists; `add_member` has no
try/except, so the error propagates to the caller.  `Except.error` models
that raised exception (the store is unchanged); `Except.ok` is the store
with the row appended.  The INSERT hard-codes
`subscription_status = 'incomplete'` and
`certificate_status = 'pending_payment'`. -/
def add_member (store : List Member)
    (user_id name email password_hash : String) (children : Nat)
    (cert_id initial_expiry_iso medical_answers_encrypted : String)
    (stripe_customer_id stripe_subscription_id : Option String)
    (now_iso : String) : Except String (List Member) :=
  if store.any (fun m => m.email = email) then
    Except.error "UNIQUE constraint failed: members.email"
  else
    Except.ok (store ++ [{
      id := user_id, name := name, email := email,
      password_hash := password_hash, children := children,
      certificate_id := cert_id,
      certificate_status := "pending_payment",
      certificate_expiry_date := some initial_expiry_iso,
      medical_answers_encrypted := medical_answers_encrypted,
      stripe_customer_id := stripe_customer_id,
      stripe_subscription_id := stripe_subscription_id,
      subscription_status := "incomplete",
      created_at := now_iso, updated_at := now_iso }])

/-- `update_member_subscription_details` (`db_utils.py` lines 64-72):
sets the Stripe references, `subscription_status` and `updated_at` on
every row whose `email` matches. -/
def update_member_subscription_details (store : List Member) (email : String)
    (stripe_customer_id stripe_subscription_id : Option String)
    (subscription_status : String) (now_iso : String) : List Member :=
  store.map fun m =>
    if m.email = email then
      { m with stripe_customer_id := stripe_customer_id,
               stripe_subscription_id := stripe_subscription_id,
               subscription_status := subscription_status,
               updated_at := now_iso }
    else m

/-- `update_subscription_status` (`db_utils.py` lines 74-89): two SQL
branches selected by Python truthiness of `cert_expiry_iso` — when the
expiry is `None` or empty the UPDATE omits `certificate_expiry_date`.
Both branches match rows by `stripe_subscription_id`. -/
def update_subscription_status (store : List Member)
    (stripe_subscription_id : String) (sub_status cert_status : String)
    (cert_expiry_iso : Option String) (now_iso : String) : List Member :=
  if pyTruthy cert_expiry_iso then
    store.map fun m =>
      if m.stripe_subscription_id = some stripe_subscription_id then
        { m with subscription_status := sub_status,
                 certificate_status := cert_status,
                 certificate_expiry_date := cert_expiry_iso,
                 updated_at := now_iso }
      else m
  else
    store.map fun m =>
      if m.stripe_subscription_id = some stripe_subscription_id then
        { m with subscription_status := sub_status,
                 certificate_status := cert_status,
                 updated_at := now_iso }
      else m

/-- `update_children_count` (`db_utils.py` lines 91-99). -/
def update_children_count (store : List Member) (email : String)
    (new_children_count : Nat) (now_iso : String) : List Member :=
  store.map fun m =>
    if m.email = email then
      { m with children := new_children_count, updated_at := now_iso }
    else m

/-- One line item of a Stripe subscription (`sub['items']['data']`). -/
structure SubscriptionItem where
  id : String
  price_id : String
  quantity : Nat
deriving Repr, DecidableEq

/-- The slice of a Stripe subscription object the code reads:
`status`, `current_period_end` (epoch seconds) and the line items. -/
structure StripeSubscription where
  status : String
  current_period_end : Nat
  items : List SubscriptionItem
deriving Repr, DecidableEq

/-- The item-scanning loop of `update_stripe_subscription_children`
(`app.py` lines 76-80): walks the items in order, recording the id of a
child-price item and of a base-price item; a later match overwrites an
earlier one, exactly as the loop's assignments do.  Returns
`(child_item_id, base_item_id)`. -/
def scan_items (basePriceId childPriceId : String)
    (items : List SubscriptionItem) : Option String × Option String :=
  items.foldl
    (fun acc it =>
      if it.price_id = childPriceId then (some it.id, acc.2)
      else if it.price_id = basePriceId then (acc.1, some it.id)
      else acc)
    (none, none)

/-- One entry of the `items=` argument passed to
`stripe.Subscription.modify`: keep/update a line item at a quantity,
delete a line item, or add a new line item by price. -/
inductive ItemUpdate where
  | keep (id : String) (quantity : Nat)
  | del (id : String)
  | addItem (price : String) (quantity : Nat)
deriving Repr, DecidableEq

/-- `update_stripe_subscription_children` (`app.py` lines 70-111).
`gw` models `stripe.Subscription.retrieve` (`none` = a raised
`StripeError`, caught at line 109).  The result is `none` exactly when
the function returns `False` without calling `stripe.Subscription.modify`
(retrieve failed, no base item found, or empty update list); it is
`some ops` when `modify` is called with `ops` and the function returns
`True`. -/
def update_stripe_subscription_children
    (gw : String → Option StripeSubscription)
    (basePriceId childPriceId : String)
    (subscription_id : String) (new_quantity : Nat) :
    Option (List ItemUpdate) :=
  match gw subscription_id with
  | none => none
  | some sub =>
    let scanned := scan_items basePriceId childPriceId sub.items
    match scanned.2 with
    | none => none
    | some base_item_id =>
      let withBase := [ItemUpdate.keep base_item_id 1]
      let items_to_update :=
        match scanned.1 with
        | some child_item_id =>
          if new_quantity > 0 then
            withBase ++ [ItemUpdate.keep child_item_id new_quantity]
          else
            withBase ++ [ItemUpdate.del child_item_id]
        | none =>
          if new_quantity > 0 then
            withBase ++ [ItemUpdate.addItem childPriceId new_quantity]
          else withBase
      if items_to_update.isEmpty then none else some items_to_update

/-- The fields of a `checkout.session.completed` payload the handler
reads: `customer`, `subscription`, `metadata.app_user_id` and
`customer_details.email` (each may be absent). -/
structure CheckoutSession where
  customer : Option String
  subscription : Option String
  app_user_id : Option String
  customer_email : Option String
deriving Repr, DecidableEq

/-- The `checkout.session.completed` branch of the webhook handler
(`webhook_listener.py` lines 43-89).  `gw` models
`stripe.Subscription.retrieve`; `isoOfEpoch` models
`datetime.fromtimestamp(·, timezone.utc).isoformat()`.  The member is
looked up by the session's customer email; the `app_user_id` metadata is
only tested for presence.  Any failure path (missing fields, gateway
error, no member found) leaves the store unchanged and only logs. -/
def handle_checkout_completed (gw : String → Option StripeSubscription)
    (isoOfEpoch : Nat → String) (now_iso : String)
    (session : CheckoutSession) (store : List Member) : List Member :=
  if pyTruthy session.customer && pyTruthy session.subscription
      && pyTruthy session.app_user_id then
    let cust := session.customer.getD ""
    let subId := session.subscription.getD ""
    match gw subId with
    | none => store
    | some sub =>
      let sub_status := sub.status
      let cert_status :=
        if sub_status = "active" ∨ sub_status = "trialing" then "active"
        else "pending_payment"
      let expiry_iso := isoOfEpoch sub.current_period_end
      match session.customer_email with
      | none => store
      | some em =>
        match get_member_by_email store em with
        | none => store
        | some member =>
          let store1 := update_member_subscription_details store member.email
            (some cust) (some subId) sub_status now_iso
          update_subscription_status store1 subId sub_status cert_status
            (some expiry_iso) now_iso
  else store

/-- The `invoice.payment_succeeded` branch (`webhook_listener.py` lines
92-108): retrieve the subscription, then
`update_subscription_status(subId, 'active', 'active', expiry_iso)` with
the ISO rendering of `current_period_end`.  Gateway failure is caught
and leaves the store unchanged. -/
def handle_invoice_payment_succeeded (gw : String → Option StripeSubscription)
    (isoOfEpoch : Nat → String) (now_iso : String)
    (invoice_subscription : Option String) (store : List Member) :
    List Member :=
  if pyTruthy invoice_subscription then
    let subId := invoice_subscription.getD ""
    match gw subId with
    | none => store
    | some sub =>
      update_subscription_status store subId "active" "active"
        (some (isoOfEpoch sub.current_period_end)) now_iso
  else store

/-- The `invoice.payment_failed` branch (`webhook_listener.py` lines
110-118).  `past_iso` models `(now - 1 day).isoformat()`. -/
def handle_invoice_payment_failed (past_iso now_iso : String)
    (invoice_subscription : Option String) (store : List Member) :
    List Member :=
  if pyTruthy invoice_subscription then
    update_subscription_status store (invoice_subscription.getD "")
      "past_due" "expired" (some past_iso) now_iso
  else store

/-- The `customer.subscription.updated` branch (`webhook_listener.py`
lines 120-149): derive the certificate status from the gateway status,
reconcile the local children count against the first child-price line
item when a member is found, then update the status row (the status
update runs whether or not a member was found, as in the source). -/
def handle_customer_subscription_updated (childPriceId : String)
    (isoOfEpoch : Nat → String) (now_iso : String)
    (subId : String) (sub : StripeSubscription) (store : List Member) :
    List Member :=
  let new_status := sub.status
  let cert_status :=
    if new_status = "active" ∨ new_status = "trialing" then "active"
    else if new_status = "canceled" then "revoked"
    else "expired"
  let expiry_iso := isoOfEpoch sub.current_period_end
  let store1 :=
    match get_member_by_stripe_subscription_id store subId with
    | none => store
    | some member =>
      let children_on_stripe :=
        (sub.items.find? (fun it => it.price_id = childPriceId)).elim 0
          (fun it => it.quantity)
      if member.children ≠ children_on_stripe then
        update_children_count store member.email children_on_stripe now_iso
      else store
  update_subscription_status store1 subId new_status cert_status
    (some expiry_iso) now_iso

/-- The `customer.subscription.deleted` branch (`webhook_listener.py`
lines 151-157). -/
def handle_customer_subscription_deleted (past_iso now_iso : String)
    (subId : String) (store : List Member) : List Member :=
  update_subscription_status store subId "canceled" "revoked"
    (some past_iso) now_iso

/-- A verified Stripe event envelope, one constructor per handled
`event['type']` carrying the payload fields the handler reads. -/
inductive StripeEvent where
  | checkoutSessionCompleted (session : CheckoutSession)
  | invoicePaymentSucceeded (subscription : Option String)
  | invoicePaymentFailed (subscription : Option String)
  | customerSubscriptionUpdated (id : String) (sub : StripeSubscription)
  | customerSubscriptionDeleted (id : String)
  | other (eventType : String)
deriving Repr, DecidableEq

/-- Outcome of `stripe.Webhook.construct_event` (`webhook_listener.py`
lines 28-38): a verified event, a `ValueError` (malformed payload), a
`SignatureVerificationError`, or any other exception. -/
inductive VerifyOutcome where
  | ok (event : StripeEvent)
  | invalidPayload
  | invalidSignature
  | otherFailure
deriving Repr, DecidableEq

/-- The external collaborators of the webhook process: the gateway, the
configured child price id, the epoch-to-ISO renderer, and the clock's
current and one-day-past ISO strings. -/
structure WebhookEnv where
  gw : String → Option StripeSubscription
  childPriceId : String
  isoOfEpoch : Nat → String
  now_iso : String
  past_iso : String

/-- Event dispatch of the webhook body (`webhook_listener.py` lines
43-160); unknown event types are acknowledged and ignored. -/
def handle_event (env : WebhookEnv) (ev : StripeEvent)
    (store : List Member) : List Member :=
  match ev with
  | .checkoutSessionCompleted s =>
    handle_checkout_completed env.gw env.isoOfEpoch env.now_iso s store
  | .invoicePaymentSucceeded subOpt =>
    handle_invoice_payment_succeeded env.gw env.isoOfEpoch env.now_iso
      subOpt store
  | .invoicePaymentFailed subOpt =>
    handle_invoice_payment_failed env.past_iso env.now_iso subOpt store
  | .customerSubscriptionUpdated subId sub =>
    handle_customer_subscription_updated env.childPriceId env.isoOfEpoch
      env.now_iso subId sub store
  | .customerSubscriptionDeleted subId =>
    handle_customer_subscription_deleted env.past_iso env.now_iso subId store
  | .other _ => store

/-- `stripe_webhook` (`webhook_listener.py` lines 20-162): returns the
HTTP status together with the store after the request.  A missing
endpoint secret is a 500; `ValueError` and
`SignatureVerificationError` from `construct_event` are 400s raised
before any event handling; any other construction failure is a 500;
otherwise the event is dispatched and the route returns 200. -/
def stripe_webhook (secretConfigured : Bool) (env : WebhookEnv)
    (verify : VerifyOutcome) (store : List Member) : Nat × List Member :=
  if !secretConfigured then (500, store)
  else match verify with
    | .invalidPayload => (400, store)
    | .invalidSignature => (400, store)
    | .otherFailure => (500, store)
    | .ok ev => (200, handle_event env ev store)

/-- The fields of the registration form the handler reads. -/
structure RegistrationInput where
  name : String
  email : String
  password : String
  children : Nat
deriving Repr, DecidableEq

/-- How a registration submission ends (`app.py` lines 184-218).
`uncaughtIntegrityError` is the `sqlite3.IntegrityError` from
`add_member` escaping the handler (the source wraps the INSERT in no
try/except). -/
inductive RegOutcome where
  | missingFields
  | emailAlreadyRegistered
  | gatewayFailed
  | success
  | uncaughtIntegrityError
deriving Repr, DecidableEq

/-- The Register form submit handler (`app.py` lines 184-218).
`checkStore` is the store as read by the duplicate check
(`get_member_by_email`); `insertStore` is the store at the moment the
INSERT executes — equal to `checkStore` in a sequential run, possibly
extended by a concurrent insert in a race.  `checkout_url` is the url
returned by `create_stripe_checkout_session` (`none` when the gateway
call failed and the session returned `(None, None)`); the session is
created before any row is persisted, and `add_member` runs only when a
url was obtained. -/
def register_submit (checkStore insertStore : List Member)
    (input : RegistrationInput)
    (user_id cert_id initial_expiry_iso encrypted_medical
      hashed_password : String)
    (checkout_url : Option String) (now_iso : String) :
    RegOutcome × List Member :=
  if input.name = "" ∨ input.email = "" ∨ input.password = "" then
    (.missingFields, insertStore)
  else if (get_member_by_email checkStore input.email).isSome then
    (.emailAlreadyRegistered, insertStore)
  else
    match checkout_url with
    | some _ =>
      match add_member insertStore user_id input.name input.email
          hashed_password input.children cert_id initial_expiry_iso
          encrypted_medical none none now_iso with
      | .ok store2 => (.success, store2)
      | .error _ => (.uncaughtIntegrityError, insertStore)
    | none => (.gatewayFailed, insertStore)

/-- Projection of the fields the reconciliation claims talk about. -/
def statusTriple (m : Member) : String × String × Option String :=
  (m.subscription_status, m.certificate_status, m.certificate_expiry_date)

/-- Sample gateway subscription used by concrete witnesses. -/
def sampleSub : StripeSubscription :=
  { status := "active", current_period_end := 1700000000, items := [] }

/-- Sample gateway: every retrieval succeeds with `sampleSub`. -/
def sampleGw : String → Option StripeSubscription := fun _ => some sampleSub

/-- Sample epoch-to-ISO renderer with a fixed, non-empty output. -/
def sampleIsoConst : Nat → String := fun _ => "2030-01-01T00:00:00+00:00"

/-- Sample member holding subscription `sub_1`. -/
def memberAlice : Member :=
  { id := "user-1", name := "Alice", email := "alice@example.com",
    password_hash := "h1", children := 2, certificate_id := "cert-1",
    certificate_status := "pending_payment",
    certificate_expiry_date := some "2024-01-01T00:00:00+00:00",
    medical_answers_encrypted := "enc1", stripe_customer_id := none,
    stripe_subscription_id := some "sub_1",
    subscription_status := "incomplete",
    created_at := "T0", updated_at := "T0" }

/-- `memberAlice` as `invoice.payment_succeeded` for `sub_1` leaves it. -/
def memberAliceActive : Member :=
  { memberAlice with
      subscription_status := "active",
      certificate_status := "active",
      certificate_expiry_date := some "2030-01-01T00:00:00+00:00",
      updated_at := "T1" }

/-- Sample member with no subscription reference yet. -/
def memberBob : Member :=
  { id := "user-2", name := "Bob", email := "bob@example.com",
    password_hash := "h2", children := 0, certificate_id := "cert-2",
    certificate_status := "pending_payment",
    certificate_expiry_date := some "2024-02-01T00:00:00+00:00",
    medical_answers_encrypted := "enc2", stripe_customer_id := none,
    stripe_subscription_id := none,
    subscription_status := "incomplete",
    created_at := "T0", updated_at := "T0" }

/-- Sample member row inserted by a concurrent registration. -/
def memberCarol : Member :=
  { id := "user-9", name := "Carol", email := "carol@example.com",
    password_hash := "h9", children := 1, certificate_id := "cert-9",
    certificate_status := "pending_payment",
    certificate_expiry_date := some "2024-03-01T00:00:00+00:00",
    medical_answers_encrypted := "enc9", stripe_customer_id := none,
    stripe_subscription_id := none,
    subscription_status := "incomplete",
    created_at := "T0", updated_at := "T0" }

/-- Sample registration form input. -/
def raceInput : RegistrationInput :=
  { name := "Carol", email := "carol@example.com", password := "pw",
    children := 0 }

/-- Sample `checkout.session.completed` payload whose correlation
metadata names `user-1` while the gateway-reported customer email is
Bob's. -/
def sessionForAlice : CheckoutSession :=
  { customer := some "cus_9", subscription := some "sub_9",
    app_user_id := some "user-1",
    customer_email := some "bob@example.com" }

/-- Sample webhook environment for concrete witnesses. -/
def sampleEnv : WebhookEnv :=
  { gw := sampleGw, childPriceId := "price_child",
    isoOfEpoch := sampleIsoConst, now_iso := "T1", past_iso := "Tpast" }

end HealthCare

namespace HealthCare

/-- C9: For every non-negative integer `children`, the monthly price equals
`base_fee + per_child_fee * children` with `base_fee = 20` and
`per_child_fee = 5` (so `price 0 = 20` and `price 2 = 30`), the function is
a total Lean function (pure, no error conditions), and the price is
monotonically non-decreasing in `children`. -/
theorem c9_price_formula :
    (∀ children : Nat, calculate_total_monthly_cost children = 20 + 5 * children) ∧
    calculate_total_monthly_cost 0 = 20 ∧
    calculate_total_monthly_cost 2 = 30 ∧
    (∀ a b : Nat, a ≤ b →
      calculate_total_monthly_cost a ≤ calculate_total_monthly_cost b) := by
  refine ⟨fun _ => rfl, rfl, rfl, fun a b hab => ?_⟩
  simp only [calculate_total_monthly_cost]
  omega

/-- Witness for C9: the monotonicity conjunct applied at `1 ≤ 3`. -/
theorem c9_price_formula_witness :
    calculate_total_monthly_cost 1 ≤ calculate_total_monthly_cost 3 :=
  c9_price_formula.2.2.2 1 3 (by decide)

/-- C7: certificate validity checking returns `false` when the status is
not `"active"`, `false` when the expiry is absent (or empty, Python
falsy), `false` when the expiry parses to a time at or before `now`,
`false` (instead of a raised parse fault) when the parser rejects the
string, and `true` exactly when the status is `"active"` and the expiry
parses to a time strictly after `now`.  The naive-timestamp-as-UTC rule
lives inside `parseIso`, the model of the external datetime library. -/
theorem c7_is_valid_characterisation (parseIso : String → Option Int) (now : Int) :
    (∀ expiry status, status ≠ "active" →
      is_certificate_valid_from_db parseIso now expiry status = false) ∧
    (∀ status, is_certificate_valid_from_db parseIso now none status = false) ∧
    (∀ s status, parseIso (s.replace "Z" "+00:00") = none →
      is_certificate_valid_from_db parseIso now (some s) status = false) ∧
    (∀ s status t, parseIso (s.replace "Z" "+00:00") = some t → t ≤ now →
      is_certificate_valid_from_db parseIso now (some s) status = false) ∧
    (∀ expiry status,
      is_certificate_valid_from_db parseIso now expiry status = true ↔
        (status = "active" ∧ ∃ s t, expiry = some s ∧ s ≠ "" ∧
          parseIso (s.replace "Z" "+00:00") = some t ∧ t > now)) := by
  refine ⟨?_, ?_, ?_, ?_, ?_⟩
  · intro expiry status hstat
    simp [is_certificate_valid_from_db, hstat]
  · intro status
    simp [is_certificate_valid_from_db]
  · intro s status hparse
    by_cases hstat : status = "active"
    · subst hstat
      by_cases hs : s = "" <;> simp [is_certificate_valid_from_db, hs, hparse]
    · simp [is_certificate_valid_from_db, hstat]
  · intro s status t hparse hle
    by_cases hstat : status = "active"
    · subst hstat
      by_cases hs : s = ""
      · simp [is_certificate_valid_from_db, hs]
      · simp [is_certificate_valid_from_db, hs, hparse]
        omega
    · simp [is_certificate_valid_from_db, hstat]
  · intro expiry status
    constructor
    · intro h
      by_cases hstat : status = "active"
      · subst hstat
        match expiry with
        | none => simp [is_certificate_valid_from_db] at h
        | some s =>
          by_cases hs : s = ""
          · simp [is_certificate_valid_from_db, hs] at h
          · refine ⟨rfl, s, ?_⟩
            cases hp : parseIso (s.replace "Z" "+00:00") with
            | none => simp [is_certificate_valid_from_db, hs, hp] at h
            | some t =>
              refine ⟨t, rfl, hs, rfl, ?_⟩
              simp [is_certificate_valid_from_db, hs, hp] at h
              exact h
      · exfalso
        simp [is_certificate_valid_from_db, hstat] at h
    · rintro ⟨hstat, s, t, hexp, hs, hparse, hgt⟩
      subst hstat hexp
      simp [is_certificate_valid_from_db, hs, hparse]
      exact hgt

/-- Witness for C7: a concrete parser under which an `"active"` status with
a future expiry validates, discharged through the characterisation. -/
theorem c7_is_valid_characterisation_witness :
    is_certificate_valid_from_db (fun _ => some 100)
      50 (some "2030-01-01T00:00:00Z") "active" = true :=
  ((c7_is_valid_characterisation (fun _ => some 100)
      50).2.2.2.2 (some "2030-01-01T00:00:00Z") "active").mpr
    ⟨rfl, "2030-01-01T00:00:00Z", 100, rfl, by decide, rfl, by decide⟩

/-- C1: processing an `invoice.payment_succeeded` event whose invoice
references subscription `subId`, when the gateway reports billing-period
end `sub.current_period_end`, sets every matched record's
`subscription_status` and `certificate_status` to `"active"` and its
`certificate_expiry_date` to the ISO rendering of that period end (the
code stores `datetime.fromtimestamp(T, utc).isoformat()`, never the
empty string, hence the non-emptiness hypothesis on the renderer). -/
theorem c1_payment_succeeded_sets_active
    (gw : String → Option StripeSubscription) (isoOfEpoch : Nat → String)
    (now_iso : String) (store : List Member) (subId : String)
    (sub : StripeSubscription)
    (hsub : subId ≠ "") (hgw : gw subId = some sub)
    (hiso : isoOfEpoch sub.current_period_end ≠ "") :
    ∀ m ∈ handle_invoice_payment_succeeded gw isoOfEpoch now_iso
        (some subId) store,
      m.stripe_subscription_id = some subId →
        m.subscription_status = "active" ∧
        m.certificate_status = "active" ∧
        m.certificate_expiry_date = some (isoOfEpoch sub.current_period_end) := by
  intro m hm hmid
  have h1 : pyTruthy (some subId) = true := by simp [pyTruthy, hsub]
  simp only [handle_invoice_payment_succeeded, h1, if_true, Option.getD_some,
    hgw] at hm
  have h2 : pyTruthy (some (isoOfEpoch sub.current_period_end)) = true := by
    simp [pyTruthy, hiso]
  simp only [update_subscription_status, h2, if_true] at hm
  rw [List.mem_map] at hm
  obtain ⟨m0, _, rfl⟩ := hm
  by_cases h : m0.stripe_subscription_id = some subId
  · simp [h]
  · rw [if_neg h] at hmid ⊢
    exact absurd hmid h

/-- Witness for C1: a concrete store with one member on `sub_1`. -/
theorem c1_payment_succeeded_sets_active_witness :
    memberAliceActive.subscription_status = "active" ∧
    memberAliceActive.certificate_status = "active" ∧
    memberAliceActive.certificate_expiry_date =
      some (sampleIsoConst sampleSub.current_period_end) := by
  refine c1_payment_succeeded_sets_active sampleGw sampleIsoConst "T1"
    [memberAlice] "sub_1" sampleSub (by decide) rfl (by decide)
    _ ?_ rfl
  show _ ∈ handle_invoice_payment_succeeded sampleGw sampleIsoConst "T1"
    (some "sub_1") [memberAlice]
  decide

/-- Replaying `update_subscription_status` with the same subscription id,
statuses and expiry changes nothing on the
(`subscription_status`, `certificate_status`, `certificate_expiry_date`)
projection (only `updated_at` is refreshed). -/
theorem update_subscription_status_triple_idem
    (store : List Member) (subId ss cs : String) (e : Option String)
    (now1 now2 : String) :
    (update_subscription_status
        (update_subscription_status store subId ss cs e now1)
        subId ss cs e now2).map statusTriple
      = (update_subscription_status store subId ss cs e now1).map
          statusTriple := by
  by_cases ht : pyTruthy e = true <;>
    · simp only [update_subscription_status, ht, if_true, if_false,
        Bool.false_eq_true, List.map_map]
      refine List.map_congr_left ?_
      intro m _
      by_cases h : m.stripe_subscription_id = some subId <;>
        simp [Function.comp, h, statusTriple]

/-- C2: processing the same `invoice.payment_succeeded` event twice in
succession (the gateway's view of the subscription unchanged between the
two deliveries) leaves every record — in particular the matched one —
with the same (`subscription_status`, `certificate_status`,
`certificate_expiry_date`) triple as processing it once; only
`updated_at` can differ. -/
theorem c2_payment_succeeded_idempotent
    (gw : String → Option StripeSubscription) (isoOfEpoch : Nat → String)
    (now1 now2 : String) (invSub : Option String) (store : List Member) :
    (handle_invoice_payment_succeeded gw isoOfEpoch now2 invSub
        (handle_invoice_payment_succeeded gw isoOfEpoch now1 invSub
          store)).map statusTriple
      = (handle_invoice_payment_succeeded gw isoOfEpoch now1 invSub
          store).map statusTriple := by
  by_cases hp : pyTruthy invSub = true
  · simp only [handle_invoice_payment_succeeded, hp, if_true]
    cases hg : gw (invSub.getD "") with
    | none => rfl
    | some sub =>
      exact update_subscription_status_triple_idem store (invSub.getD "")
        "active" "active" (some (isoOfEpoch sub.current_period_end)) now1
        now2
  · simp [handle_invoice_payment_succeeded, hp]

/-- C3: registration is atomic-or-nothing with respect to the gateway
call.  The checkout session is created before any row is persisted, and
`add_member` runs only under `if checkout_url:`; so whenever the gateway
returns no checkout url the store is left exactly as it was, and in
particular an email with no row before the attempt has no row after it. -/
theorem c3_registration_atomic_on_gateway_failure
    (checkStore insertStore : List Member) (input : RegistrationInput)
    (uid cid exp med hp now : String) :
    (register_submit checkStore insertStore input uid cid exp med hp
        none now).2 = insertStore ∧
    (get_member_by_email insertStore input.email = none →
      get_member_by_email
        (register_submit checkStore insertStore input uid cid exp med hp
          none now).2 input.email = none) := by
  have hstore : (register_submit checkStore insertStore input uid cid exp
      med hp none now).2 = insertStore := by
    by_cases h1 : input.name = "" ∨ input.email = "" ∨ input.password = ""
    · simp [register_submit, h1]
    · by_cases h2 : (get_member_by_email checkStore input.email).isSome
      · simp [register_submit, h1, h2]
      · simp [register_submit, h1, h2]
  exact ⟨hstore, fun hnone => by rw [hstore]; exact hnone⟩

/-- Witness for C3: empty store, valid fields, gateway failure — no row
for the email afterwards. -/
theorem c3_registration_atomic_on_gateway_failure_witness :
    get_member_by_email
      (register_submit ([] : List Member) ([] : List Member) raceInput
        "user-3" "cert-3" "E0" "enc0" "hash0" none "T1").2
      raceInput.email = none :=
  (c3_registration_atomic_on_gateway_failure [] [] raceInput
    "user-3" "cert-3" "E0" "enc0" "hash0" "T1").2 rfl

/-- C5: a webhook request whose signature fails verification, or whose
payload is malformed, is answered with HTTP 400 (a client error) by the
`construct_event` guard, before any event dispatch, and the store is
returned unchanged. -/
theorem c5_bad_signature_rejected_without_mutation
    (env : WebhookEnv) (verify : VerifyOutcome) (store : List Member)
    (h : verify = VerifyOutcome.invalidSignature ∨
         verify = VerifyOutcome.invalidPayload) :
    stripe_webhook true env verify store = (400, store) ∧ 400 < 500 := by
  rcases h with h | h <;> subst h <;> exact ⟨rfl, by decide⟩

/-- Witness for C5: a concrete invalid-signature request against a
one-member store. -/
theorem c5_bad_signature_rejected_without_mutation_witness :
    stripe_webhook true sampleEnv VerifyOutcome.invalidSignature
        [memberAlice] = (400, [memberAlice]) ∧ 400 < 500 :=
  c5_bad_signature_rejected_without_mutation sampleEnv
    VerifyOutcome.invalidSignature [memberAlice] (Or.inl rfl)

/-- C10: `update_subscription_status` preserves the store's length; a
record whose `stripe_subscription_id` does not match is returned
unchanged in either expiry branch; and when the expiry argument is
Python-falsy (`None` or empty) a matched record gets the new
`subscription_status`, `certificate_status` and `updated_at` while its
`certificate_expiry_date` is left unchanged. -/
theorem c10_update_subscription_status_frame
    (store : List Member) (subId ss cs : String) (e : Option String)
    (now : String) :
    (update_subscription_status store subId ss cs e now).length =
      store.length ∧
    (∀ (i : Nat) (old : Member), store[i]? = some old →
      ∃ new : Member,
        (update_subscription_status store subId ss cs e now)[i]? =
          some new ∧
        (old.stripe_subscription_id ≠ some subId → new = old) ∧
        (pyTruthy e = false → old.stripe_subscription_id = some subId →
          new.subscription_status = ss ∧ new.certificate_status = cs ∧
          new.updated_at = now ∧
          new.certificate_expiry_date = old.certificate_expiry_date)) := by
  by_cases ht : pyTruthy e = true
  · simp only [update_subscription_status, ht, if_true]
    refine ⟨List.length_map .., ?_⟩
    intro i old hold
    refine ⟨_, by rw [List.getElem?_map, hold]; rfl, ?_, ?_⟩
    · intro hne
      simp [hne]
    · intro hfalse
      exact absurd hfalse (by decide)
  · have ht' : pyTruthy e = false := by
      cases hpe : pyTruthy e
      · rfl
      · exact absurd hpe ht
    simp only [update_subscription_status, ht', Bool.false_eq_true,
      if_false]
    refine ⟨List.length_map .., ?_⟩
    intro i old hold
    refine ⟨_, by rw [List.getElem?_map, hold]; rfl, ?_, ?_⟩
    · intro hne
      simp [hne]
    · intro _ heq
      simp [heq]

/-- Witness for C10: updating `sub_1` with a `None` expiry on a
two-member store — the matched record's statuses move, its expiry stays,
and the non-matching record is untouched. -/
theorem c10_update_subscription_status_frame_witness :
    ((update_subscription_status [memberAlice, memberBob] "sub_1"
        "past_due" "expired" none "T2")[0]?).map
      Member.subscription_status = some "past_due" ∧
    ((update_subscription_status [memberAlice, memberBob] "sub_1"
        "past_due" "expired" none "T2")[0]?).map
      Member.certificate_expiry_date =
        some memberAlice.certificate_expiry_date ∧
    (update_subscription_status [memberAlice, memberBob] "sub_1"
        "past_due" "expired" none "T2")[1]? = some memberBob := by
  obtain ⟨-, hall⟩ := c10_update_subscription_status_frame
    [memberAlice, memberBob] "sub_1" "past_due" "expired" none "T2"
  obtain ⟨newA, hA, -, hAmatch⟩ := hall 0 memberAlice rfl
  obtain ⟨newB, hB, hBframe, -⟩ := hall 1 memberBob rfl
  obtain ⟨hss, -, -, hexp⟩ := hAmatch rfl rfl
  refine ⟨?_, ?_, ?_⟩
  · rw [hA]
    simp [hss]
  · rw [hA]
    simp [hexp]
  · rw [hB, hBframe (by decide)]

/-- The item-scan fold only reports a base item id that belongs to an
item of the scanned list bearing the base price. -/
theorem scan_items_foldl_base (b c : String) (items : List SubscriptionItem) :
    ∀ (acc : Option String × Option String) (x : String),
      (items.foldl
        (fun acc it =>
          if it.price_id = c then (some it.id, acc.2)
          else if it.price_id = b then (acc.1, some it.id)
          else acc) acc).2 = some x →
      acc.2 = some x ∨ ∃ it ∈ items, it.price_id = b ∧ it.id = x := by
  induction items with
  | nil => exact fun acc x h => Or.inl h
  | cons it rest ih =>
    intro acc x h
    rw [List.foldl_cons] at h
    rcases ih _ x h with h2 | ⟨it2, hmem, hpz, hid⟩
    · by_cases hc : it.price_id = c
      · rw [if_pos hc] at h2
        exact Or.inl h2
      · by_cases hb : it.price_id = b
        · rw [if_neg hc, if_pos hb] at h2
          have h3 : it.id = x := by simpa using h2
          exact Or.inr ⟨it, List.mem_cons_self .., hb, h3⟩
        · rw [if_neg hc, if_neg hb] at h2
          exact Or.inl h2
    · exact Or.inr ⟨it2, List.mem_cons_of_mem _ hmem, hpz, hid⟩

/-- When `scan_items` finds a base item id, some item of the
subscription carries the base price and that id. -/
theorem scan_items_base_mem (b c : String) (items : List SubscriptionItem)
    (x : String) (h : (scan_items b c items).2 = some x) :
    ∃ it ∈ items, it.price_id = b ∧ it.id = x := by
  rcases scan_items_foldl_base b c items (none, none) x h with h2 | h2
  · exact absurd h2 (by simp)
  · exact h2

/-- C8: every dependent-count update either makes no mutating gateway
call at all and reports failure (`none`: retrieve failed, or no
base-price item was found on the subscription), or its mutation list
sent to `stripe.Subscription.modify` contains the subscription's base
item pinned at quantity 1 — so no sequence of such updates ever removes
the base line item. -/
theorem c8_base_item_preserved
    (gw : String → Option StripeSubscription)
    (basePriceId childPriceId subId : String) (q : Nat) :
    (gw subId = none ∧
      update_stripe_subscription_children gw basePriceId childPriceId
        subId q = none) ∨
    (∃ sub, gw subId = some sub ∧
      (((scan_items basePriceId childPriceId sub.items).2 = none ∧
          update_stripe_subscription_children gw basePriceId childPriceId
            subId q = none) ∨
        (∃ ops,
          update_stripe_subscription_children gw basePriceId childPriceId
            subId q = some ops ∧
          ∃ it ∈ sub.items, it.price_id = basePriceId ∧
            ItemUpdate.keep it.id 1 ∈ ops))) := by
  cases hg : gw subId with
  | none =>
    exact Or.inl ⟨rfl, by simp [update_stripe_subscription_children, hg]⟩
  | some sub =>
    refine Or.inr ⟨sub, rfl, ?_⟩
    cases hscan : (scan_items basePriceId childPriceId sub.items).2 with
    | none =>
      exact Or.inl ⟨rfl,
        by simp [update_stripe_subscription_children, hg, hscan]⟩
    | some x =>
      obtain ⟨it, hmem, hb, hid⟩ :=
        scan_items_base_mem basePriceId childPriceId sub.items x hscan
      right
      have hcompute : ∃ ops,
          update_stripe_subscription_children gw basePriceId childPriceId
            subId q = some ops ∧ ItemUpdate.keep x 1 ∈ ops := by
        simp only [update_stripe_subscription_children, hg, hscan]
        cases hchild : (scan_items basePriceId childPriceId sub.items).1 with
        | none => by_cases hq : q > 0 <;> simp [hq]
        | some cid => by_cases hq : q > 0 <;> simp [hq]
      obtain ⟨ops, hops, hkeep⟩ := hcompute
      exact ⟨ops, hops, it, hmem, hb, hid ▸ hkeep⟩

/-- Counterexample to C4: `sessionForAlice` carries correlation metadata
`app_user_id = "user-1"` (Alice), yet the handler attaches the new
subscription `sub_9` to Bob, the member matched by the session's
customer email, and leaves Alice exactly as she was — member resolution
is the email lookup, not the correlation metadata, which refutes the
claim that the metadata is the primary resolution mechanism. -/
theorem c4_counterexample_email_is_primary :
    (handle_checkout_completed sampleGw sampleIsoConst "T1"
        sessionForAlice [memberAlice, memberBob]).map
      (fun m => (m.id, m.stripe_subscription_id, m.subscription_status))
      = [("user-1", some "sub_1", "incomplete"),
         ("user-2", some "sub_9", "active")] := by decide

/-- C4 as amended: in `checkout.session.completed` handling the
correlation metadata is only a presence gate — an event whose
`app_user_id` is absent is dropped with the store unchanged, and for any
two non-empty metadata values the handler produces identical stores, so
the metadata's value never influences which member is resolved; the
member is resolved solely by email lookup. -/
theorem c4_amended_metadata_gates_email_resolves
    (gw : String → Option StripeSubscription) (iso : Nat → String)
    (now : String) (store : List Member) (s : CheckoutSession)
    (a b : String) (ha : a ≠ "") (hb : b ≠ "") :
    handle_checkout_completed gw iso now
        { s with app_user_id := none } store = store ∧
    handle_checkout_completed gw iso now
        { s with app_user_id := some a } store =
      handle_checkout_completed gw iso now
        { s with app_user_id := some b } store := by
  constructor
  · simp [handle_checkout_completed, pyTruthy]
  · have h1 : pyTruthy (some a) = true := by simp [pyTruthy, ha]
    have h2 : pyTruthy (some b) = true := by simp [pyTruthy, hb]
    simp [handle_checkout_completed, h1, h2]

/-- Witness for the amended C4 at concrete inputs: two different
metadata values produce the same store, and a metadata-less session is
dropped. -/
theorem c4_amended_metadata_gates_email_resolves_witness :
    handle_checkout_completed sampleGw sampleIsoConst "T1"
        { sessionForAlice with app_user_id := none }
        [memberAlice, memberBob] = [memberAlice, memberBob] ∧
    handle_checkout_completed sampleGw sampleIsoConst "T1"
        { sessionForAlice with app_user_id := some "user-1" }
        [memberAlice, memberBob] =
      handle_checkout_completed sampleGw sampleIsoConst "T1"
        { sessionForAlice with app_user_id := some "someone-else" }
        [memberAlice, memberBob] :=
  c4_amended_metadata_gates_email_resolves sampleGw sampleIsoConst "T1"
    [memberAlice, memberBob] sessionForAlice "user-1" "someone-else"
    (by decide) (by decide)

/-- Counterexample to C6: Carol's email is free when the duplicate check
reads the store, a concurrent registration inserts her row before the
INSERT runs, and the gateway call succeeded — the submission then ends
in `uncaughtIntegrityError`: the UNIQUE constraint blocks the duplicate
(store unchanged) but the failure propagates as an unhandled
`sqlite3.IntegrityError` instead of being handled and reported to the
caller, which refutes the claim's handled-failure-path requirement. -/
theorem c6_counterexample_race_is_uncaught :
    register_submit [] [memberCarol] raceInput "user-3" "cert-3" "E0"
        "enc0" "hash0" (some "https://pay.example") "T1"
      = (RegOutcome.uncaughtIntegrityError, [memberCarol]) := by decide

/-- C6 as amended: with a row for the email present at INSERT time the
store is never mutated (the unique-email constraint is authoritative, no
silent duplicate); a duplicate already visible to the pre-insert check
is reported to the caller synchronously as `emailAlreadyRegistered`; but
a duplicate appearing between the check and the INSERT surfaces as an
uncaught `IntegrityError` rather than a handled, reported failure. -/
theorem c6_amended_unique_authoritative_but_race_uncaught
    (checkStore insertStore : List Member) (input : RegistrationInput)
    (uid cid exp med hp : String) (url : Option String) (now : String)
    (hdup : insertStore.any (fun m => m.email = input.email) = true) :
    (register_submit checkStore insertStore input uid cid exp med hp
        url now).2 = insertStore ∧
    (input.name ≠ "" → input.email ≠ "" → input.password ≠ "" →
      (get_member_by_email checkStore input.email).isSome = true →
      (register_submit checkStore insertStore input uid cid exp med hp
          url now).1 = RegOutcome.emailAlreadyRegistered) ∧
    (input.name ≠ "" → input.email ≠ "" → input.password ≠ "" →
      get_member_by_email checkStore input.email = none →
      url.isSome = true →
      (register_submit checkStore insertStore input uid cid exp med hp
          url now).1 = RegOutcome.uncaughtIntegrityError) := by
  refine ⟨?_, ?_, ?_⟩
  · by_cases h1 : input.name = "" ∨ input.email = "" ∨ input.password = ""
    · simp [register_submit, h1]
    · by_cases h2 : (get_member_by_email checkStore input.email).isSome
      · simp [register_submit, h1, h2]
      · cases url with
        | none => simp [register_submit, h1, h2]
        | some u => simp [register_submit, h1, h2, add_member, hdup]
  · intro hn he hpw hsome
    have h1 : ¬(input.name = "" ∨ input.email = "" ∨ input.password = "") := by
      simp [hn, he, hpw]
    simp [register_submit, h1, hsome]
  · intro hn he hpw hchk hurl
    have h1 : ¬(input.name = "" ∨ input.email = "" ∨ input.password = "") := by
      simp [hn, he, hpw]
    have h2 : ¬(get_member_by_email checkStore input.email).isSome = true := by
      simp [hchk]
    cases url with
    | none => simp at hurl
    | some u => simp [register_submit, h1, h2, add_member, hdup]

/-- Witness for the amended C6 at concrete inputs: the check-to-insert
race ends in the uncaught fault with the store unchanged, and a
duplicate already visible to the pre-insert check is reported
synchronously as `emailAlreadyRegistered`. -/
theorem c6_amended_unique_authoritative_but_race_uncaught_witness :
    (register_submit [] [memberCarol] raceInput "user-3" "cert-3" "E0"
        "enc0" "hash0" (some "https://pay.example") "T1").2 =
      [memberCarol] ∧
    (register_submit [] [memberCarol] raceInput "user-3" "cert-3" "E0"
        "enc0" "hash0" (some "https://pay.example") "T1").1 =
      RegOutcome.uncaughtIntegrityError ∧
    (register_submit [memberCarol] [memberCarol] raceInput "user-3"
        "cert-3" "E0" "enc0" "hash0" (some "https://pay.example") "T1").1 =
      RegOutcome.emailAlreadyRegistered := by
  have h := c6_amended_unique_authoritative_but_race_uncaught
    [] [memberCarol] raceInput "user-3" "cert-3" "E0" "enc0" "hash0"
    (some "https://pay.example") "T1" (by decide)
  have h2 := c6_amended_unique_authoritative_but_race_uncaught
    [memberCarol] [memberCarol] raceInput "user-3" "cert-3" "E0" "enc0"
    "hash0" (some "https://pay.example") "T1" (by decide)
  exact ⟨h.1, h.2.2 (by decide) (by decide) (by decide) rfl rfl,
    h2.2.1 (by decide) (by decide) (by decide) (by decide)⟩

end HealthCare
